import Mathlib

/-!
Shallow embedding of `src/App.jsx` (multi-provider chat gateway):
the `models` table, the `callApi` dispatch, and the `sendMessage`
state transition, with JS numbers modelled as rationals and the
network modelled as an explicit oracle.
-/

/-- A conversation turn: `{ role, content }` as in the source. -/
structure Message where
  role : String
  content : String
deriving DecidableEq, Repr

/-- Provider descriptor, one row of the `models` array in the source. -/
structure ModelDesc where
  name : String
  key : String
  color : String
deriving DecidableEq, Repr

/-- The `models` array from the source (App.jsx lines 5-10). -/
def models : List ModelDesc :=
  [ ⟨"Llama 3 Groq 70B Tool Use", "LLAMA", "#007AFF"⟩,
    ⟨"ChatGPT 4.0", "CHATGPT", "#34C759"⟩,
    ⟨"Claude 3.5 Sonnet", "CLAUDE", "#5856D6"⟩,
    ⟨"Gemini 1.5 PRO", "GEMINI", "#FF9500"⟩ ]

/-- OpenAI-chat-shaped request body (LLAMA and CHATGPT branches). -/
structure OpenAIRequest where
  model : String
  messages : List Message
  temperature : Option ℚ
  max_tokens : Option ℕ
deriving DecidableEq, Repr

/-- The fields of an OpenAI-shaped success response that the source reads:
`choices[0].message.content` and `usage.total_tokens`. -/
structure OpenAIResponse where
  content : String
  total_tokens : ℚ
deriving DecidableEq, Repr

/-- Anthropic messages-API request body (CLAUDE branch). -/
structure ClaudeRequest where
  model : String
  max_tokens : ℕ
  temperature : ℚ
  messages : List Message
deriving DecidableEq, Repr

/-- The fields of a Claude success response that the source reads:
`content[0].text`, `usage.input_tokens`, `usage.output_tokens`. -/
structure ClaudeResponse where
  text : String
  input_tokens : ℚ
  output_tokens : ℚ
deriving DecidableEq, Repr

/-- One element of a Gemini `parts` array: `{ text }`. -/
structure GeminiPart where
  text : String
deriving DecidableEq, Repr

/-- One element of the Gemini `contents` array: `{ role, parts }`. -/
structure GeminiContent where
  role : String
  parts : List GeminiPart
deriving DecidableEq, Repr

/-- Gemini request body: `{ contents }`. -/
structure GeminiRequest where
  contents : List GeminiContent
deriving DecidableEq, Repr

/-- The field of a Gemini success response that the source reads:
`candidates[0].content.parts[0].text`. -/
structure GeminiResponse where
  text : String
deriving DecidableEq, Repr

/-- Outcome of one outbound HTTP call: a parsed success payload, or a
failure whose `String` stands for the serialized error body / transport
message that the catch block interpolates into the error text. -/
inductive NetOutcome (α : Type) where
  | success (resp : α)
  | failure (body : String)
deriving DecidableEq, Repr

/-- Network oracle: what each provider endpoint would answer for a given
request.  `callApi` consults exactly one of these per invocation. -/
structure Net where
  llama : OpenAIRequest → NetOutcome OpenAIResponse
  chatgpt : OpenAIRequest → NetOutcome OpenAIResponse
  claude : ClaudeRequest → NetOutcome ClaudeResponse
  gemini : GeminiRequest → NetOutcome GeminiResponse

/-- The normalized `{ message, cost }` value returned by `callApi`. -/
structure CallResult where
  message : String
  cost : ℚ
deriving DecidableEq, Repr

/-- The LLAMA request body built at App.jsx lines 55-59. -/
def llamaRequest (messageHistory : List Message) : OpenAIRequest :=
  ⟨"llama3-groq-70b-8192-tool-use-preview", messageHistory, some (1/2), some 4096⟩

/-- The CHATGPT request body built at App.jsx lines 74-76. -/
def chatgptRequest (messageHistory : List Message) : OpenAIRequest :=
  ⟨"gpt-4", messageHistory, none, none⟩

/-- The CLAUDE request body built at App.jsx lines 91-96. -/
def claudeRequest (messageHistory : List Message) : ClaudeRequest :=
  ⟨"claude-3-sonnet-20240229", 1000, 3/10, messageHistory⟩

/-- The per-message Gemini remapping (App.jsx lines 106-109): a message
whose role equals "assistant" is remapped to role "model", any other role
to "user", and the content is wrapped as a single-element `parts` array. -/
def geminiMap (msg : Message) : GeminiContent :=
  ⟨if msg.role = "assistant" then "model" else "user", [⟨msg.content⟩]⟩

/-- The GEMINI request body built at App.jsx lines 106-112. -/
def geminiRequest (messageHistory : List Message) : GeminiRequest :=
  ⟨messageHistory.map geminiMap⟩

/-- The GEMINI token-count estimate (App.jsx line 121):
`messageHistory.reduce((acc, msg) => acc + msg.content.length, 0) * 1.3`. -/
def geminiTokenCount (messageHistory : List Message) : ℚ :=
  ((messageHistory.foldl (fun acc msg => acc + msg.content.length) 0 : ℕ) : ℚ) * (13/10)

/-- The error message built by the catch block at App.jsx line 133:
`Failed to get response from ${modelKey}: ${detail}`. -/
def providerError (modelKey detail : String) : String :=
  "Failed to get response from " ++ modelKey ++ ": " ++ detail

/-- `callApi(modelKey, messageHistory)` (App.jsx lines 47-135), with the
configured `pricePerMillion` and the network passed explicitly.  Returns the
`Except` outcome together with a `Bool` recording whether a network call was
issued.  The `default` branch throws inside the `try`, so its error is
re-wrapped by the same catch block as every network failure. -/
def callApi (modelKey : String) (messageHistory : List Message)
    (pricePerMillion : ℚ) (net : Net) : Except String CallResult × Bool :=
  match modelKey with
  | "LLAMA" =>
    match net.llama (llamaRequest messageHistory) with
    | .success r =>
      (.ok ⟨r.content, (r.total_tokens / 1000000) * pricePerMillion⟩, true)
    | .failure body => (.error (providerError modelKey body), true)
  | "CHATGPT" =>
    match net.chatgpt (chatgptRequest messageHistory) with
    | .success r =>
      (.ok ⟨r.content, (r.total_tokens / 1000000) * pricePerMillion⟩, true)
    | .failure body => (.error (providerError modelKey body), true)
  | "CLAUDE" =>
    match net.claude (claudeRequest messageHistory) with
    | .success r =>
      (.ok ⟨r.text,
        ((r.input_tokens + r.output_tokens) / 1000000) * pricePerMillion⟩, true)
    | .failure body => (.error (providerError modelKey body), true)
  | "GEMINI" =>
    match net.gemini (geminiRequest messageHistory) with
    | .success r =>
      (.ok ⟨r.text, (geminiTokenCount messageHistory / 1000000) * pricePerMillion⟩, true)
    | .failure body => (.error (providerError modelKey body), true)
  | _ => (.error (providerError modelKey "Invalid model selected"), false)

/-- JS `String.prototype.trim`: strip leading and trailing whitespace. -/
def jsTrim (s : String) : String :=
  String.mk (((s.data.dropWhile Char.isWhitespace).reverse.dropWhile
    Char.isWhitespace).reverse)

/-- JS object-spread update `{...prev, [k]: v}`: replace `k` in place if
present, otherwise append a new entry. -/
def objSet (o : List (String × ℚ)) (k : String) (v : ℚ) : List (String × ℚ) :=
  if k ∈ o.map Prod.fst then
    o.map (fun p => if p.1 = k then (k, v) else p)
  else o ++ [(k, v)]

/-- JS property read `o[k]` on the cost object (0 stands in for a key that
is always present in reachable states). -/
def lookupCost (o : List (String × ℚ)) (k : String) : ℚ :=
  (((o.find? (fun p => p.1 = k)).map Prod.snd).getD 0)

/-- The component state held in `useState` hooks: selected model, input
field, conversation transcript, cost ledger. -/
structure AppState where
  selectedModel : ModelDesc
  input : String
  messages : List Message
  apiCosts : List (String × ℚ)
deriving DecidableEq, Repr

/-- The initial component state (App.jsx lines 13-21). -/
def initialState : AppState :=
  ⟨⟨"Llama 3 Groq 70B Tool Use", "LLAMA", "#007AFF"⟩, "", [],
    [("LLAMA", 0), ("CHATGPT", 0), ("CLAUDE", 0), ("GEMINI", 0)]⟩

/-- `sendMessage` (App.jsx lines 23-45): guard on blank input, append the
user turn, clear the input, dispatch, then either append the assistant turn
and charge the ledger, or append an `Error: ...` turn.  The `Bool` records
whether a network call was issued. -/
def sendMessage (st : AppState) (net : Net) (price : String → ℚ) :
    AppState × Bool :=
  if jsTrim st.input = "" then (st, false)
  else
    let userMessage : Message := ⟨"user", st.input⟩
    let updatedMessages := st.messages ++ [userMessage]
    let key := st.selectedModel.key
    match callApi key updatedMessages (price key) net with
    | (.ok res, called) =>
      ({ st with
          input := "",
          messages := updatedMessages ++ [⟨"assistant", res.message⟩],
          apiCosts := objSet st.apiCosts key (lookupCost st.apiCosts key + res.cost) },
        called)
    | (.error e, called) =>
      ({ st with
          input := "",
          messages := updatedMessages ++ [⟨"assistant", "Error: " ++ e⟩] },
        called)

/-- One user interaction with the component: picking a model from the
`models` table, editing the input field, or submitting. -/
inductive Op where
  | select (i : Fin 4)
  | setInput (s : String)
  | send (net : Net) (price : String → ℚ)

/-- The model the UI hands to `setSelectedModel` for a click on tile `i`. -/
def modelAt (i : Fin 4) : ModelDesc :=
  models.get ⟨i.val, i.isLt⟩

/-- State transition for one interaction. -/
def step (st : AppState) (op : Op) : AppState :=
  match op with
  | .select i => { st with selectedModel := modelAt i }
  | .setInput s => { st with input := s }
  | .send net price => (sendMessage st net price).1

/-- States reachable from the initial state by user interactions. -/
inductive Reach : AppState → Prop where
  | init : Reach initialState
  | next {st : AppState} (h : Reach st) (op : Op) : Reach (step st op)

/-- The four known provider ids, in ledger order. -/
def costKeys : List String := ["LLAMA", "CHATGPT", "CLAUDE", "GEMINI"]

/-- Total character count of a history: the quantity the Gemini estimate
is computed from. -/
def totalChars (hist : List Message) : ℕ :=
  (hist.map (fun m => m.content.length)).sum

/-- A network oracle whose endpoints all succeed with fixed payloads. -/
def netOk : Net :=
  ⟨fun _ => .success ⟨"ok", 10⟩, fun _ => .success ⟨"ok", 10⟩,
   fun _ => .success ⟨"4", 10, 5⟩, fun _ => .success ⟨"g"⟩⟩

/-- A network oracle whose endpoints all fail with body "boom". -/
def netFail : Net :=
  ⟨fun _ => .failure "boom", fun _ => .failure "boom",
   fun _ => .failure "boom", fun _ => .failure "boom"⟩

/-- A network oracle whose endpoints all succeed and report zero tokens. -/
def netZero : Net :=
  ⟨fun _ => .success ⟨"ok", 0⟩, fun _ => .success ⟨"ok", 0⟩,
   fun _ => .success ⟨"z", 0, 0⟩, fun _ => .success ⟨"g"⟩⟩

/-- Every successful response the oracle can deliver reports non-negative
token counts. -/
def NetNonneg (net : Net) : Prop :=
  (∀ q r, net.llama q = .success r → 0 ≤ r.total_tokens) ∧
  (∀ q r, net.chatgpt q = .success r → 0 ≤ r.total_tokens) ∧
  (∀ q r, net.claude q = .success r → 0 ≤ r.input_tokens ∧ 0 ≤ r.output_tokens)

/-- The endpoint that `callApi modelKey hist` would hit answers the exact
request it sends with an HTTP or transport failure carrying `body`. -/
def endpointFails (modelKey : String) (net : Net) (hist : List Message)
    (body : String) : Prop :=
  match modelKey with
  | "LLAMA" => net.llama (llamaRequest hist) = .failure body
  | "CHATGPT" => net.chatgpt (chatgptRequest hist) = .failure body
  | "CLAUDE" => net.claude (claudeRequest hist) = .failure body
  | "GEMINI" => net.gemini (geminiRequest hist) = .failure body
  | _ => False

/-- Folding content lengths over a history equals the accumulator plus the
total character count. -/
lemma foldl_add_content_length (hist : List Message) (n : ℕ) :
    hist.foldl (fun acc msg => acc + msg.content.length) n = n + totalChars hist := by
  induction hist generalizing n with
  | nil => simp [totalChars]
  | cons m t ih =>
    simp only [List.foldl_cons, ih, totalChars, List.map_cons, List.sum_cons]
    omega

/-- The source estimate equals total characters times 13/10. -/
lemma geminiTokenCount_eq (hist : List Message) :
    geminiTokenCount hist = (totalChars hist : ℚ) * (13/10) := by
  unfold geminiTokenCount
  rw [foldl_add_content_length hist 0]
  simp

/-- The Gemini estimate is never negative. -/
lemma geminiTokenCount_nonneg (hist : List Message) : 0 ≤ geminiTokenCount hist := by
  rw [geminiTokenCount_eq]
  positivity

/-- Replacing the entries at key `k` does not change the key list. -/
lemma map_fst_replace (o : List (String × ℚ)) (k : String) (v : ℚ) :
    (o.map (fun p => if p.1 = k then (k, v) else p)).map Prod.fst = o.map Prod.fst := by
  induction o with
  | nil => rfl
  | cons p t ih => by_cases h : p.1 = k <;> simp [h, ih]

/-- Spread-updating an already-present key leaves the key list unchanged. -/
lemma objSet_map_fst (o : List (String × ℚ)) (k : String) (v : ℚ)
    (hk : k ∈ o.map Prod.fst) :
    (objSet o k v).map Prod.fst = o.map Prod.fst := by
  unfold objSet
  rw [if_pos hk]
  exact map_fst_replace o k v

/-- Finding key `k` after replacing its entries yields the written pair. -/
lemma find?_replace_self (o : List (String × ℚ)) (k : String) (v : ℚ)
    (h : k ∈ o.map Prod.fst) :
    (o.map (fun p => if p.1 = k then (k, v) else p)).find? (fun p => p.1 = k)
      = some (k, v) := by
  induction o with
  | nil => simp at h
  | cons p t ih =>
    by_cases hp : p.1 = k
    · simp [hp]
    · have ht : k ∈ t.map Prod.fst := by
        rcases List.mem_map.mp h with ⟨q, hq, hqe⟩
        rcases List.mem_cons.mp hq with rfl | hq2
        · exact absurd hqe hp
        · exact List.mem_map.mpr ⟨q, hq2, hqe⟩
      simp [hp, ih ht]

/-- Finding key `k` after appending `(k, v)` to a list that lacks `k`
yields the appended pair. -/
lemma find?_append_self (o : List (String × ℚ)) (k : String) (v : ℚ)
    (h : ∀ p ∈ o, ¬ p.1 = k) :
    (o ++ [(k, v)]).find? (fun p => p.1 = k) = some (k, v) := by
  induction o with
  | nil => simp
  | cons p t ih =>
    simp [h p (List.mem_cons_self p t),
      ih (fun q hq => h q (List.mem_cons_of_mem p hq))]

/-- Replacing entries at `k` does not affect searches for another key. -/
lemma find?_replace_other (o : List (String × ℚ)) (k k' : String) (v : ℚ)
    (hne : k' ≠ k) :
    (o.map (fun p => if p.1 = k then (k, v) else p)).find? (fun p => p.1 = k')
      = o.find? (fun p => p.1 = k') := by
  induction o with
  | nil => rfl
  | cons p t ih =>
    rw [List.map_cons]
    by_cases hp : p.1 = k
    · have h3 : ¬ (p.1 = k') := by rw [hp]; exact fun he => hne he.symm
      have h4 : ¬ ((k, v).1 = k') := fun he => hne he.symm
      rw [if_pos hp, List.find?_cons_of_neg _ (by simp [h4]),
        List.find?_cons_of_neg _ (by simp [h3]), ih]
    · by_cases h2 : p.1 = k'
      · rw [if_neg hp, List.find?_cons_of_pos _ (by simp [h2]),
          List.find?_cons_of_pos _ (by simp [h2])]
      · rw [if_neg hp, List.find?_cons_of_neg _ (by simp [h2]),
          List.find?_cons_of_neg _ (by simp [h2]), ih]

/-- Appending `(k, v)` does not affect searches for another key. -/
lemma find?_append_other (o : List (String × ℚ)) (k k' : String) (v : ℚ)
    (hne : k' ≠ k) :
    (o ++ [(k, v)]).find? (fun p => p.1 = k') = o.find? (fun p => p.1 = k') := by
  induction o with
  | nil => simp [hne.symm]
  | cons p t ih =>
    by_cases h2 : p.1 = k' <;> simp [h2, ih]

/-- After a spread update at `k`, reading `k` gives the written value. -/
lemma lookupCost_objSet_self (o : List (String × ℚ)) (k : String) (v : ℚ) :
    lookupCost (objSet o k v) k = v := by
  unfold objSet lookupCost
  by_cases hk : k ∈ o.map Prod.fst
  · rw [if_pos hk, find?_replace_self o k v hk]
    rfl
  · rw [if_neg hk,
      find?_append_self o k v (fun p hp he => hk (List.mem_map.mpr ⟨p, hp, he⟩))]
    rfl

/-- A spread update at `k` does not change the value read at another key. -/
lemma lookupCost_objSet_other (o : List (String × ℚ)) (k k' : String) (v : ℚ)
    (hne : k' ≠ k) : lookupCost (objSet o k v) k' = lookupCost o k' := by
  unfold objSet lookupCost
  by_cases hk : k ∈ o.map Prod.fst
  · rw [if_pos hk, find?_replace_other o k k' v hne]
  · rw [if_neg hk, find?_append_other o k k' v hne]

/-- A string all of whose characters are whitespace trims to the empty
string. -/
lemma jsTrim_of_all_whitespace (s : String) (h : ∀ c ∈ s.data, c.isWhitespace) :
    jsTrim s = "" := by
  unfold jsTrim
  have hd : s.data.dropWhile Char.isWhitespace = [] :=
    List.dropWhile_eq_nil_iff.mpr h
  rw [hd]
  rfl

/-- Dispatch on an id outside the four known variants: the throw in the
default branch is re-wrapped by the catch block into the normalized error
string, and no network call is issued. -/
lemma callApi_unknown (k : String) (hist : List Message) (price : ℚ) (net : Net)
    (hk : k ∉ costKeys) :
    callApi k hist price net =
      (.error (providerError k "Invalid model selected"), false) := by
  have h1 : k ≠ "LLAMA" := fun h => hk (by simp [costKeys, h])
  have h2 : k ≠ "CHATGPT" := fun h => hk (by simp [costKeys, h])
  have h3 : k ≠ "CLAUDE" := fun h => hk (by simp [costKeys, h])
  have h4 : k ≠ "GEMINI" := fun h => hk (by simp [costKeys, h])
  unfold callApi
  split
  · exact absurd rfl h1
  · exact absurd rfl h2
  · exact absurd rfl h3
  · exact absurd rfl h4
  · rfl

/-- The key of every row of the `models` table is a known provider id. -/
lemma mem_models_key (m : ModelDesc) (hm : m ∈ models) : m.key ∈ costKeys := by
  simp only [models, List.mem_cons, List.not_mem_nil, or_false] at hm
  rcases hm with rfl | rfl | rfl | rfl <;> decide

/-- A successful dispatch returns a non-negative cost when the configured
price and every reported token count are non-negative. -/
lemma callApi_ok_cost_nonneg (k : String) (hist : List Message) (price : ℚ)
    (net : Net) (hp : 0 ≤ price) (hn : NetNonneg net) (res : CallResult)
    (h : (callApi k hist price net).1 = .ok res) : 0 ≤ res.cost := by
  obtain ⟨hl, hc, hcl⟩ := hn
  obtain ⟨rm, rc⟩ := res
  unfold callApi at h
  split at h
  · rcases hr : net.llama (llamaRequest hist) with r | body <;>
      rw [hr] at h <;> simp at h
    obtain ⟨h1, h2⟩ := h
    subst h2
    exact mul_nonneg (div_nonneg (hl _ _ hr) (by norm_num)) hp
  · rcases hr : net.chatgpt (chatgptRequest hist) with r | body <;>
      rw [hr] at h <;> simp at h
    obtain ⟨h1, h2⟩ := h
    subst h2
    exact mul_nonneg (div_nonneg (hc _ _ hr) (by norm_num)) hp
  · rcases hr : net.claude (claudeRequest hist) with r | body <;>
      rw [hr] at h <;> simp at h
    obtain ⟨h1, h2⟩ := h
    subst h2
    obtain ⟨ha, hb⟩ := hcl _ _ hr
    exact mul_nonneg (div_nonneg (by linarith) (by norm_num)) hp
  · rcases hr : net.gemini (geminiRequest hist) with r | body <;>
      rw [hr] at h <;> simp at h
    obtain ⟨h1, h2⟩ := h
    subst h2
    exact mul_nonneg (div_nonneg (geminiTokenCount_nonneg hist) (by norm_num)) hp
  · simp at h

/-- A successful dispatch returns cost exactly zero when the token count
that the branch uses is zero. -/
lemma callApi_ok_cost_zero (k : String) (hist : List Message) (price : ℚ)
    (net : Net) (res : CallResult)
    (hl : ∀ q r, net.llama q = .success r → r.total_tokens = 0)
    (hc : ∀ q r, net.chatgpt q = .success r → r.total_tokens = 0)
    (hcl : ∀ q r, net.claude q = .success r → r.input_tokens + r.output_tokens = 0)
    (hg : k = "GEMINI" → geminiTokenCount hist = 0)
    (h : (callApi k hist price net).1 = .ok res) : res.cost = 0 := by
  obtain ⟨rm, rc⟩ := res
  unfold callApi at h
  split at h
  · rcases hr : net.llama (llamaRequest hist) with r | body <;>
      rw [hr] at h <;> simp at h
    obtain ⟨h1, h2⟩ := h
    subst h2
    simp [hl _ _ hr]
  · rcases hr : net.chatgpt (chatgptRequest hist) with r | body <;>
      rw [hr] at h <;> simp at h
    obtain ⟨h1, h2⟩ := h
    subst h2
    simp [hc _ _ hr]
  · rcases hr : net.claude (claudeRequest hist) with r | body <;>
      rw [hr] at h <;> simp at h
    obtain ⟨h1, h2⟩ := h
    subst h2
    simp [hcl _ _ hr]
  · rcases hr : net.gemini (geminiRequest hist) with r | body <;>
      rw [hr] at h <;> simp at h
    obtain ⟨h1, h2⟩ := h
    subst h2
    simp [hg rfl]
  · simp at h

/-- Case equation for `sendMessage` when the dispatch succeeds. -/
lemma sendMessage_ok (st : AppState) (net : Net) (price : String → ℚ)
    (res : CallResult) (hb : ¬ jsTrim st.input = "")
    (h : (callApi st.selectedModel.key (st.messages ++ [⟨"user", st.input⟩])
      (price st.selectedModel.key) net).1 = .ok res) :
    sendMessage st net price =
      ({ st with
          input := "",
          messages := (st.messages ++ [⟨"user", st.input⟩])
            ++ [⟨"assistant", res.message⟩],
          apiCosts := objSet st.apiCosts st.selectedModel.key
            (lookupCost st.apiCosts st.selectedModel.key + res.cost) },
        (callApi st.selectedModel.key (st.messages ++ [⟨"user", st.input⟩])
          (price st.selectedModel.key) net).2) := by
  simp only [sendMessage]
  rw [if_neg hb]
  rw [show (callApi st.selectedModel.key (st.messages ++ [⟨"user", st.input⟩])
      (price st.selectedModel.key) net)
      = (.ok res, (callApi st.selectedModel.key (st.messages ++ [⟨"user", st.input⟩])
          (price st.selectedModel.key) net).2) from by rw [← h]]

/-- Case equation for `sendMessage` when the dispatch fails. -/
lemma sendMessage_error (st : AppState) (net : Net) (price : String → ℚ)
    (e : String) (hb : ¬ jsTrim st.input = "")
    (h : (callApi st.selectedModel.key (st.messages ++ [⟨"user", st.input⟩])
      (price st.selectedModel.key) net).1 = .error e) :
    sendMessage st net price =
      ({ st with
          input := "",
          messages := (st.messages ++ [⟨"user", st.input⟩])
            ++ [⟨"assistant", "Error: " ++ e⟩] },
        (callApi st.selectedModel.key (st.messages ++ [⟨"user", st.input⟩])
          (price st.selectedModel.key) net).2) := by
  simp only [sendMessage]
  rw [if_neg hb]
  rw [show (callApi st.selectedModel.key (st.messages ++ [⟨"user", st.input⟩])
      (price st.selectedModel.key) net)
      = (.error e, (callApi st.selectedModel.key (st.messages ++ [⟨"user", st.input⟩])
          (price st.selectedModel.key) net).2) from by rw [← h]]

/-- Every reachable state keeps exactly the four provider keys in the
ledger and a selected model drawn from the `models` table. -/
lemma reach_inv (st : AppState) (h : Reach st) :
    st.apiCosts.map Prod.fst = costKeys ∧ st.selectedModel ∈ models := by
  induction h with
  | init => exact ⟨rfl, by decide⟩
  | next h op ih =>
    obtain ⟨ih1, ih2⟩ := ih
    rename_i st2
    cases op with
    | select i =>
      refine ⟨ih1, ?_⟩
      show modelAt i ∈ models
      exact List.get_mem models i.val _
    | setInput s => exact ⟨ih1, ih2⟩
    | send net price =>
      show ((sendMessage st2 net price).1).apiCosts.map Prod.fst = costKeys ∧
        ((sendMessage st2 net price).1).selectedModel ∈ models
      by_cases hb : jsTrim st2.input = ""
      · simp only [sendMessage, if_pos hb]
        exact ⟨ih1, ih2⟩
      · rcases hres : (callApi st2.selectedModel.key
            (st2.messages ++ [⟨"user", st2.input⟩])
            (price st2.selectedModel.key) net).1 with e | res
        · rw [sendMessage_error st2 net price e hb hres]
          exact ⟨ih1, ih2⟩
        · rw [sendMessage_ok st2 net price res hb hres]
          refine ⟨?_, ih2⟩
          show (objSet st2.apiCosts st2.selectedModel.key
            (lookupCost st2.apiCosts st2.selectedModel.key + res.cost)).map
              Prod.fst = costKeys
          rw [objSet_map_fst _ _ _ (by rw [ih1]; exact mem_models_key _ ih2)]
          exact ih1

/-- The all-success oracle reports only non-negative token counts. -/
lemma netOk_nonneg : NetNonneg netOk := by
  refine ⟨?_, ?_, ?_⟩ <;> intro q r hr <;> injection hr with h <;>
    rw [← h] <;> decide

/-- The zero-token oracle reports only non-negative token counts. -/
lemma netZero_nonneg : NetNonneg netZero := by
  refine ⟨?_, ?_, ?_⟩ <;> intro q r hr <;> injection hr with h <;>
    rw [← h] <;> decide

/-- The zero-token oracle reports zero LLAMA tokens. -/
lemma netZero_llama_zero :
    ∀ q r, netZero.llama q = .success r → r.total_tokens = 0 := by
  intro q r hr
  injection hr with h
  rw [← h]

/-- The zero-token oracle reports zero CHATGPT tokens. -/
lemma netZero_chatgpt_zero :
    ∀ q r, netZero.chatgpt q = .success r → r.total_tokens = 0 := by
  intro q r hr
  injection hr with h
  rw [← h]

/-- The zero-token oracle reports zero CLAUDE tokens. -/
lemma netZero_claude_zero :
    ∀ q r, netZero.claude q = .success r → r.input_tokens + r.output_tokens = 0 := by
  intro q r hr
  injection hr with h
  rw [← h]
  norm_num

/-- One `sendMessage` only ever appends to the transcript. -/
lemma sendMessage_messages_mono (st : AppState) (net : Net)
    (price : String → ℚ) :
    ∃ t, ((sendMessage st net price).1).messages = st.messages ++ t := by
  by_cases hb : jsTrim st.input = ""
  · exact ⟨[], by simp [sendMessage, hb]⟩
  · rcases hres : (callApi st.selectedModel.key
        (st.messages ++ [⟨"user", st.input⟩])
        (price st.selectedModel.key) net).1 with e | res
    · exact ⟨[⟨"user", st.input⟩, ⟨"assistant", "Error: " ++ e⟩],
        by rw [sendMessage_error st net price e hb hres]; simp⟩
    · exact ⟨[⟨"user", st.input⟩, ⟨"assistant", res.message⟩],
        by rw [sendMessage_ok st net price res hb hres]; simp⟩

/-- One interaction only ever appends to the transcript. -/
lemma step_messages_mono (st : AppState) (op : Op) :
    ∃ t, (step st op).messages = st.messages ++ t := by
  cases op with
  | select i => exact ⟨[], by simp [step]⟩
  | setInput s => exact ⟨[], by simp [step]⟩
  | send net price => exact sendMessage_messages_mono st net price

/-- A whole interaction sequence only ever appends to the transcript. -/
lemma foldl_step_messages_mono (ops : List Op) (st : AppState) :
    ∃ t, ((ops.foldl step st).messages) = st.messages ++ t := by
  induction ops generalizing st with
  | nil => exact ⟨[], by simp⟩
  | cons op rest ih =>
    obtain ⟨t2, h2⟩ := ih (step st op)
    obtain ⟨t1, h1⟩ := step_messages_mono st op
    exact ⟨t1 ++ t2, by rw [List.foldl_cons, h2, h1, List.append_assoc]⟩

/-- C1: for each of the four known providers, a successful dispatch returns
the reply text the provider reported and the cost
(tokenCount / 1_000_000) * pricePerMillion, where the token count is the
accounting value of the provider: `usage.total_tokens` for LLAMA and
CHATGPT, `input_tokens + output_tokens` for CLAUDE, and the character
estimate for GEMINI. -/
theorem C1_callApi_cost_formula (price : ℚ) (hist : List Message) (net : Net)
    (ro rc : OpenAIResponse) (rcl : ClaudeResponse) (rg : GeminiResponse)
    (hl : net.llama (llamaRequest hist) = .success ro)
    (hc : net.chatgpt (chatgptRequest hist) = .success rc)
    (hcl : net.claude (claudeRequest hist) = .success rcl)
    (hg : net.gemini (geminiRequest hist) = .success rg) :
    (callApi "LLAMA" hist price net).1 =
      .ok ⟨ro.content, (ro.total_tokens / 1000000) * price⟩ ∧
    (callApi "CHATGPT" hist price net).1 =
      .ok ⟨rc.content, (rc.total_tokens / 1000000) * price⟩ ∧
    (callApi "CLAUDE" hist price net).1 =
      .ok ⟨rcl.text, ((rcl.input_tokens + rcl.output_tokens) / 1000000) * price⟩ ∧
    (callApi "GEMINI" hist price net).1 =
      .ok ⟨rg.text, (geminiTokenCount hist / 1000000) * price⟩ := by
  refine ⟨?_, ?_, ?_, ?_⟩ <;> simp [callApi, hl, hc, hcl, hg]

/-- Witness for C1 at the concrete CLAUDE scenario of the spec: a response
reporting input_tokens 10, output_tokens 5, content "4", and price 3 per
million yields reply "4" and cost 45 / 1000000 = 0.000045. -/
theorem C1_callApi_cost_formula_witness :
    (callApi "CLAUDE" [⟨"user", "2+2?"⟩] 3 netOk).1 = .ok ⟨"4", 45 / 1000000⟩ := by
  have h := C1_callApi_cost_formula 3 [⟨"user", "2+2?"⟩] netOk
    ⟨"ok", 10⟩ ⟨"ok", 10⟩ ⟨"4", 10, 5⟩ ⟨"g"⟩ rfl rfl rfl rfl
  rw [h.2.2.1]
  norm_num [Except.ok.injEq, CallResult.mk.injEq]

/-- C2 (amended): dispatch with an id outside the four known variants does
fail before issuing any network call, but the `Invalid model selected`
throw is re-wrapped by the same catch block into the SAME normalized
error-string shape that every network failure produces, rather than a
distinct error type. -/
theorem C2_unknown_id_wrapped (k : String) (hist : List Message) (price : ℚ)
    (net : Net) (hk : k ∉ costKeys) :
    callApi k hist price net =
      (.error (providerError k "Invalid model selected"), false) ∧
    providerError k "Invalid model selected" =
      "Failed to get response from " ++ k ++ ": " ++ "Invalid model selected" :=
  ⟨callApi_unknown k hist price net hk, rfl⟩

/-- Witness for C2 at the concrete unknown id "PALM". -/
theorem C2_unknown_id_wrapped_witness :
    callApi "PALM" [] 0 netFail =
      (.error (providerError "PALM" "Invalid model selected"), false) ∧
    providerError "PALM" "Invalid model selected" =
      "Failed to get response from PALM: Invalid model selected" := by
  have h := C2_unknown_id_wrapped "PALM" [] 0 netFail (by decide)
  exact ⟨h.1, by decide⟩

/-- Counterexample for C2 as stated: at the unknown id "PALM" the dispatch
error is `providerError "PALM" "Invalid model selected"` — the very
normalized wrapper that a genuine LLAMA network failure also produces —
so the failure is not surfaced as an error distinguishable from the
normalized provider-call error. -/
theorem C2_counterexample :
    (callApi "PALM" [] 0 netFail).1 =
      .error (providerError "PALM" "Invalid model selected") ∧
    (callApi "LLAMA" [] 0 netFail).1 =
      .error (providerError "LLAMA" "boom") ∧
    (callApi "PALM" [] 0 netFail).2 = false :=
  ⟨rfl, rfl, rfl⟩

/-- C3: when the endpoint a dispatch targets fails, `callApi` fails with
the normalized error embedding the provider id, and a `sendMessage` whose
dispatch fails leaves the entire cost ledger untouched. -/
theorem C3_failed_call_no_charge (k : String) (hist : List Message)
    (price : ℚ) (net : Net) (body : String)
    (hf : endpointFails k net hist body) :
    (callApi k hist price net).1 =
      .error ("Failed to get response from " ++ k ++ ": " ++ body) ∧
    (∀ (st : AppState) (priceF : String → ℚ) (e : String),
      (callApi st.selectedModel.key (st.messages ++ [⟨"user", st.input⟩])
        (priceF st.selectedModel.key) net).1 = .error e →
      ((sendMessage st net priceF).1).apiCosts = st.apiCosts) := by
  constructor
  · unfold endpointFails at hf
    split at hf
    · simp [callApi, hf, providerError]
    · simp [callApi, hf, providerError]
    · simp [callApi, hf, providerError]
    · simp [callApi, hf, providerError]
    · exact hf.elim
  · intro st priceF e he
    by_cases hb : jsTrim st.input = ""
    · simp [sendMessage, hb]
    · rw [sendMessage_error st net priceF e hb he]

/-- Witness for C3: a failing CLAUDE call at a concrete state leaves the
concrete ledger unchanged. -/
theorem C3_failed_call_no_charge_witness :
    ((sendMessage ⟨⟨"Claude 3.5 Sonnet", "CLAUDE", "#5856D6"⟩, "hi", [],
        [("LLAMA", 0), ("CHATGPT", 0), ("CLAUDE", 0), ("GEMINI", 0)]⟩ netFail
        (fun _ => 2)).1).apiCosts =
      [("LLAMA", 0), ("CHATGPT", 0), ("CLAUDE", 0), ("GEMINI", 0)] := by
  have h := C3_failed_call_no_charge "CLAUDE" [⟨"user", "hi"⟩] 2 netFail
    "boom" rfl
  exact h.2 ⟨⟨"Claude 3.5 Sonnet", "CLAUDE", "#5856D6"⟩, "hi", [],
    [("LLAMA", 0), ("CHATGPT", 0), ("CLAUDE", 0), ("GEMINI", 0)]⟩
    (fun _ => 2) (providerError "CLAUDE" "boom") rfl

/-- C5: the outbound request preserves the history end-to-end in order —
the OpenAI-shaped bodies carry the history verbatim, and the GEMINI body
has one content per turn at the same index, with role assistant mapped to
model, role user kept, and the content wrapped as a single text part. -/
theorem C5_history_preserved (hist : List Message) :
    (llamaRequest hist).messages = hist ∧
    (chatgptRequest hist).messages = hist ∧
    (claudeRequest hist).messages = hist ∧
    (geminiRequest hist).contents.length = hist.length ∧
    (∀ i : ℕ, (geminiRequest hist).contents.get? i = (hist.get? i).map geminiMap) ∧
    (∀ m : Message, (geminiMap m).parts = [⟨m.content⟩] ∧
      (m.role = "assistant" → (geminiMap m).role = "model") ∧
      (m.role = "user" → (geminiMap m).role = "user")) := by
  refine ⟨rfl, rfl, rfl, by simp [geminiRequest],
    fun i => ?_, fun m => ⟨rfl, fun h => by simp [geminiMap, h],
      fun h => by simp [geminiMap, h]⟩⟩
  simp [geminiRequest]

/-- Witness for C5 at the three-turn history of the spec example. -/
theorem C5_history_preserved_witness :
    (geminiRequest [⟨"user", "hi"⟩, ⟨"assistant", "hello"⟩,
        ⟨"user", "again"⟩]).contents.get? 1 = some ⟨"model", [⟨"hello"⟩]⟩ := by
  have h := (C5_history_preserved [⟨"user", "hi"⟩, ⟨"assistant", "hello"⟩,
    ⟨"user", "again"⟩]).2.2.2.2.1 1
  rw [h]
  rfl

/-- C6: the GEMINI token count is the summed character length of the
history times 1.3, the dispatch cost divides it by a million and scales by
the price, and the cost is linear in total characters: a history with
twice the characters costs exactly twice as much at the same price. -/
theorem C6_gemini_estimate_linear (price : ℚ) (hist : List Message)
    (net : Net) (rg : GeminiResponse)
    (hg : net.gemini (geminiRequest hist) = .success rg) :
    geminiTokenCount hist = (totalChars hist : ℚ) * (13/10) ∧
    (callApi "GEMINI" hist price net).1 =
      .ok ⟨rg.text, (((totalChars hist : ℚ) * (13/10)) / 1000000) * price⟩ ∧
    (∀ hist2 : List Message, totalChars hist2 = 2 * totalChars hist →
      (geminiTokenCount hist2 / 1000000) * price
        = 2 * ((geminiTokenCount hist / 1000000) * price)) := by
  refine ⟨geminiTokenCount_eq hist, ?_, ?_⟩
  · simp [callApi, hg, geminiTokenCount_eq]
  · intro hist2 h2
    rw [geminiTokenCount_eq, geminiTokenCount_eq, h2]
    push_cast
    ring

/-- Witness for C6: doubling a 2-character history to 4 characters doubles
the estimated cost at price 7. -/
theorem C6_gemini_estimate_linear_witness :
    (geminiTokenCount [⟨"user", "abcd"⟩] / 1000000) * 7
      = 2 * ((geminiTokenCount [⟨"user", "ab"⟩] / 1000000) * 7) := by
  have h := (C6_gemini_estimate_linear 7 [⟨"user", "ab"⟩] netOk ⟨"g"⟩ rfl).2.2
  exact h [⟨"user", "abcd"⟩] (by decide)

/-- C7: with a non-negative configured price, a successful dispatch for
any provider id returns a non-negative cost whenever every reported token
count is non-negative, and returns cost exactly zero whenever the token
count used by the branch is zero. -/
theorem C7_cost_sign (k : String) (hist : List Message) (price : ℚ)
    (net : Net) (hp : 0 ≤ price) :
    (NetNonneg net →
      ∀ res, (callApi k hist price net).1 = .ok res → 0 ≤ res.cost) ∧
    ((∀ q r, net.llama q = .success r → r.total_tokens = 0) →
     (∀ q r, net.chatgpt q = .success r → r.total_tokens = 0) →
     (∀ q r, net.claude q = .success r → r.input_tokens + r.output_tokens = 0) →
     (k = "GEMINI" → geminiTokenCount hist = 0) →
     ∀ res, (callApi k hist price net).1 = .ok res → res.cost = 0) := by
  constructor
  · intro hn res h
    exact callApi_ok_cost_nonneg k hist price net hp hn res h
  · intro hl hc hcl hg res h
    exact callApi_ok_cost_zero k hist price net res hl hc hcl hg h

/-- Witness for C7: a zero-token LLAMA response at price 2 yields a cost
that is both non-negative and exactly zero. -/
theorem C7_cost_sign_witness :
    0 ≤ (CallResult.mk "ok" ((0 / 1000000) * 2)).cost ∧
    (CallResult.mk "ok" ((0 / 1000000) * 2)).cost = 0 := by
  have h := C7_cost_sign "LLAMA" [⟨"user", "hi"⟩] 2 netZero (by norm_num)
  constructor
  · exact h.1 netZero_nonneg (CallResult.mk "ok" ((0 / 1000000) * 2)) rfl
  · exact h.2 netZero_llama_zero netZero_chatgpt_zero netZero_claude_zero
      (fun hh => absurd hh (by decide)) (CallResult.mk "ok" ((0 / 1000000) * 2)) rfl

/-- C8: submitting an input made only of whitespace (the empty string
included) is a complete no-op — no network call, and the state (input
field, transcript, ledger) is returned unchanged. -/
theorem C8_blank_input_noop (st : AppState) (net : Net)
    (price : String → ℚ) (h : ∀ c ∈ st.input.data, c.isWhitespace) :
    sendMessage st net price = (st, false) := by
  simp only [sendMessage]
  rw [if_pos (jsTrim_of_all_whitespace st.input h)]

/-- Witness for C8 at the three-space input. -/
theorem C8_blank_input_noop_witness :
    sendMessage { initialState with input := "   " } netOk (fun _ => 1)
      = ({ initialState with input := "   " }, false) :=
  C8_blank_input_noop { initialState with input := "   " } netOk
    (fun _ => 1) (by decide)

/-- C9: a failing dispatch still appends exactly two turns — the user turn
and an assistant turn reading `Error: ` plus the message — and the error
turn remains part of the transcript (hence of every replayed history)
after any further sequence of interactions. -/
theorem C9_error_appends_two_turns (st : AppState) (net : Net)
    (price : String → ℚ) (e : String) (hb : ¬ jsTrim st.input = "")
    (he : (callApi st.selectedModel.key (st.messages ++ [⟨"user", st.input⟩])
      (price st.selectedModel.key) net).1 = .error e) :
    ((sendMessage st net price).1).messages =
      st.messages ++ [⟨"user", st.input⟩, ⟨"assistant", "Error: " ++ e⟩] ∧
    ((sendMessage st net price).1).messages.length = st.messages.length + 2 ∧
    (∀ ops : List Op,
      (⟨"assistant", "Error: " ++ e⟩ : Message) ∈
        (ops.foldl step ((sendMessage st net price).1)).messages) := by
  have hmsg : ((sendMessage st net price).1).messages =
      st.messages ++ [⟨"user", st.input⟩, ⟨"assistant", "Error: " ++ e⟩] := by
    rw [sendMessage_error st net price e hb he]
    simp
  refine ⟨hmsg, by rw [hmsg]; simp, ?_⟩
  intro ops
  obtain ⟨t, ht⟩ := foldl_step_messages_mono ops ((sendMessage st net price).1)
  rw [ht, hmsg]
  simp

/-- Witness for C9 at a concrete failing CLAUDE call. -/
theorem C9_error_appends_two_turns_witness :
    ((sendMessage ⟨⟨"Claude 3.5 Sonnet", "CLAUDE", "#5856D6"⟩, "hi", [], []⟩
        netFail (fun _ => 2)).1).messages =
      [⟨"user", "hi"⟩,
        ⟨"assistant", "Error: " ++ providerError "CLAUDE" "boom"⟩] := by
  have h := C9_error_appends_two_turns
    ⟨⟨"Claude 3.5 Sonnet", "CLAUDE", "#5856D6"⟩, "hi", [], []⟩
    netFail (fun _ => 2) (providerError "CLAUDE" "boom") (by decide) rfl
  simpa using h.1

/-- C10: the GEMINI role remapping is total — a turn whose role is exactly
"assistant" maps to "model", and a turn with any other role string (not
only "user") maps to "user". -/
theorem C10_gemini_role_total (m : Message) :
    ((geminiMap m).role = if m.role = "assistant" then "model" else "user") ∧
    (¬ m.role = "assistant" → (geminiMap m).role = "user") ∧
    (m.role = "assistant" → (geminiMap m).role = "model") := by
  refine ⟨rfl, fun h => by simp [geminiMap, h], fun h => by simp [geminiMap, h]⟩

/-- Witness for C10 at the role "system", which is neither user nor
assistant and is still mapped to "user". -/
theorem C10_gemini_role_total_witness :
    (geminiMap ⟨"system", "x"⟩).role = "user" :=
  (C10_gemini_role_total ⟨"system", "x"⟩).2.1 (by decide)

/-- C4 (amended): in every reachable state the cost ledger starts as the
four zeroed entries and keeps exactly one entry per known provider id;
selecting a model or editing the input never touches it; a send is
non-decreasing on every entry PROVIDED every configured price and every
reported token count is non-negative; and a successful send adds its cost
exactly to the entry of the selected provider and to no other. -/
theorem C4_ledger_invariants (st : AppState) (h : Reach st) :
    initialState.apiCosts =
      [("LLAMA", 0), ("CHATGPT", 0), ("CLAUDE", 0), ("GEMINI", 0)] ∧
    st.apiCosts.map Prod.fst = costKeys ∧
    (∀ (i : Fin 4) (s : String),
      (step st (.select i)).apiCosts = st.apiCosts ∧
      (step st (.setInput s)).apiCosts = st.apiCosts) ∧
    (∀ (net : Net) (price : String → ℚ),
      NetNonneg net → (∀ k, 0 ≤ price k) →
      ∀ k, lookupCost st.apiCosts k ≤
        lookupCost ((sendMessage st net price).1).apiCosts k) ∧
    (∀ (net : Net) (price : String → ℚ) (res : CallResult),
      ¬ jsTrim st.input = "" →
      (callApi st.selectedModel.key (st.messages ++ [⟨"user", st.input⟩])
        (price st.selectedModel.key) net).1 = .ok res →
      lookupCost ((sendMessage st net price).1).apiCosts st.selectedModel.key
        = lookupCost st.apiCosts st.selectedModel.key + res.cost ∧
      ∀ k, ¬ k = st.selectedModel.key →
        lookupCost ((sendMessage st net price).1).apiCosts k
          = lookupCost st.apiCosts k) := by
  obtain ⟨h1, h2⟩ := reach_inv st h
  refine ⟨rfl, h1, fun i s => ⟨rfl, rfl⟩, ?_, ?_⟩
  · intro net price hn hp k
    by_cases hb : jsTrim st.input = ""
    · simp [sendMessage, hb]
    · rcases hres : (callApi st.selectedModel.key
          (st.messages ++ [⟨"user", st.input⟩])
          (price st.selectedModel.key) net).1 with e | res
      · rw [sendMessage_error st net price e hb hres]
      · rw [sendMessage_ok st net price res hb hres]
        by_cases hk : k = st.selectedModel.key
        · rw [hk]
          have hself := lookupCost_objSet_self st.apiCosts st.selectedModel.key
            (lookupCost st.apiCosts st.selectedModel.key + res.cost)
          have hnn : 0 ≤ res.cost :=
            callApi_ok_cost_nonneg st.selectedModel.key
              (st.messages ++ [⟨"user", st.input⟩])
              (price st.selectedModel.key) net (hp _) hn res hres
          show lookupCost st.apiCosts st.selectedModel.key ≤
            lookupCost (objSet st.apiCosts st.selectedModel.key
              (lookupCost st.apiCosts st.selectedModel.key + res.cost))
              st.selectedModel.key
          rw [hself]
          linarith
        · show lookupCost st.apiCosts k ≤
            lookupCost (objSet st.apiCosts st.selectedModel.key
              (lookupCost st.apiCosts st.selectedModel.key + res.cost)) k
          rw [lookupCost_objSet_other st.apiCosts st.selectedModel.key k
            (lookupCost st.apiCosts st.selectedModel.key + res.cost) hk]
  · intro net price res hb hres
    rw [sendMessage_ok st net price res hb hres]
    constructor
    · exact lookupCost_objSet_self st.apiCosts st.selectedModel.key
        (lookupCost st.apiCosts st.selectedModel.key + res.cost)
    · intro k hk
      exact lookupCost_objSet_other st.apiCosts st.selectedModel.key k
        (lookupCost st.apiCosts st.selectedModel.key + res.cost) hk

/-- Witness for C4 at the initial state with the all-success oracle and
unit prices: the LLAMA ledger entry does not decrease under a send. -/
theorem C4_ledger_invariants_witness :
    lookupCost initialState.apiCosts "LLAMA" ≤
      lookupCost ((sendMessage initialState netOk (fun _ => 1)).1).apiCosts
        "LLAMA" := by
  have h := C4_ledger_invariants initialState Reach.init
  exact h.2.2.2.1 netOk (fun _ => 1) netOk_nonneg (fun k => by norm_num) "LLAMA"

/-- Counterexample for C4 as stated: with the (unvalidated) configured
price -1 per million, a successful LLAMA send DECREASES the LLAMA ledger
entry, so the ledger is not monotonically non-decreasing across every
sequence of operations. -/
theorem C4_counterexample :
    lookupCost ((step (step initialState (.setInput "hi"))
        (.send netOk (fun _ => -1))).apiCosts) "LLAMA"
      < lookupCost initialState.apiCosts "LLAMA" := by
  have hstep : step initialState (.setInput "hi")
      = { initialState with input := "hi" } := rfl
  rw [hstep]
  show lookupCost ((sendMessage { initialState with input := "hi" } netOk
      (fun _ => -1)).1).apiCosts "LLAMA" < lookupCost initialState.apiCosts "LLAMA"
  rw [sendMessage_ok { initialState with input := "hi" } netOk (fun _ => -1)
    ⟨"ok", (10 / 1000000) * (-1)⟩ (by decide) rfl]
  have hself := lookupCost_objSet_self initialState.apiCosts "LLAMA"
    (lookupCost initialState.apiCosts "LLAMA" + (10 / 1000000) * (-1))
  have hinit : lookupCost initialState.apiCosts "LLAMA" = 0 := rfl
  show lookupCost (objSet initialState.apiCosts "LLAMA"
      (lookupCost initialState.apiCosts "LLAMA" + (10 / 1000000) * (-1)))
      "LLAMA" < lookupCost initialState.apiCosts "LLAMA"
  rw [hself, hinit]
  norm_num
